import Mathlib

/-!
Verification development for the PedroPathingVisualizer browser-automation
verification scripts.

The repository's own source files (under the repository root and
`verification/`) are 18 straight-line Python scripts driving the visualizer
web application through the Playwright browser driver.  Each script is a
sequence of driver calls (launch, goto, click, fill, wait, screenshot,
close, ...) organised with Python `try`/`except`/`finally`, early `return`
and `exit(1)`.

We shallowly embed each script as a `Stmt` term: every driver call becomes
an `Op`, Python control flow becomes the corresponding `Stmt` constructor,
and the behaviour of the external world (whether a driver call raises, and
which way a data-dependent branch goes) is an oracle `Nat → Resp` consulted
once per driver call / branch decision.  `exec` runs a statement against an
oracle and returns the list of driver calls actually performed (the trace),
the way the script ended (`Outcome`), and the next oracle index.

Conventions of the embedding:
* `print` never raises and consumes no oracle index; `time.sleep` likewise.
  Every other call (a driver call) may raise, as decided by the oracle.
* Python `if` whose condition performs a driver read is `Stmt.ite c t e`:
  the read `c` is performed (it may raise); `Resp.okT` means the condition
  was true.  A branch on an already-computed Python value is
  `Stmt.branchV`, which performs no driver call and never raises.
* `try .. except Exception .. ` / bare `except` is `tryCatch`;
  `except .. raise e` is `tryCatchR`; `try .. finally ..` is `tryFinally`
  (`try/except/finally` is `tryFinally (tryCatch ..) ..`).
* `return` is `ret`, `exit(n)` is `exitc n`.  An uncaught exception makes
  the Python process exit with code 1; `exitCode` maps outcomes to process
  exit codes.
-/

namespace PedroScripts

/-- Exception kinds distinguished by the driver model. -/
inductive ExcKind where
  | obscured
  | notFound
  | timeoutErr
  | assertFail
  | other
deriving DecidableEq, Repr

/-- One driver / page call of a script, as written in the source. -/
inductive Op where
  | launch
  | newContext
  | newPage
  | goto (url : String) (timeout : Option Nat)
  | waitForSelector (sel : String) (state : String) (timeout : Option Nat)
  | waitForLoadState (st : String)
  | waitForTimeout (ms : Nat)
  | click (sel : String) (force : Bool) (timeout : Option Nat)
  | fill (sel : String) (value : String)
  | press (key : String)
  | hover (sel : String) (force : Bool)
  | focusOp (sel : String)
  | evalJs (receiver : String) (js : String)
  | screenshot (path : String)
  | close
  | printMsg (msg : String)
  | query (q : String)
  | expectVisible (sel : String) (negated : Bool) (timeout : Option Nat)
  | expectAttr (sel : String) (attr : String) (value : String)
  | sleep (ms : Nat)
  | misc (d : String)
deriving DecidableEq, Repr

/-- The embedded statement language: exactly the control flow the scripts use. -/
inductive Stmt where
  | skip
  | prim (op : Op)
  | seq (a b : Stmt)
  | ite (c : Op) (t e : Stmt)
  | branchV (d : String) (t e : Stmt)
  | tryCatch (b h : Stmt)
  | tryCatchR (b h : Stmt)
  | tryFinally (b f : Stmt)
  | ret
  | exitc (code : Nat)
deriving DecidableEq, Repr

/-- Response of the external world to one driver call / branch decision. -/
inductive Resp where
  | ok
  | okT
  | raise (k : ExcKind)
deriving DecidableEq, Repr

/-- How a script run ended. -/
inductive Outcome where
  | normal
  | raised (k : ExcKind)
  | returned
  | exited (code : Nat)
deriving DecidableEq, Repr

/-- Python's `print` and `time.sleep` cannot raise; every driver call can. -/
def fallible : Op → Bool
  | .printMsg _ => false
  | .sleep _ => false
  | _ => true

/-- Process exit code resulting from an outcome: normal completion and a plain
`return` exit 0, an uncaught exception exits 1, `exit(n)` exits `n`. -/
def exitCode : Outcome → Nat
  | .normal => 0
  | .returned => 0
  | .raised _ => 1
  | .exited c => c

/-- Run a statement against an oracle from oracle index `n`; produce the list
of calls performed, the outcome, and the next oracle index. -/
def exec : Stmt → (Nat → Resp) → Nat → List Op × Outcome × Nat
  | .skip, _, n => ([], .normal, n)
  | .prim op, orc, n =>
      if fallible op then
        match orc n with
        | .raise k => ([op], .raised k, n + 1)
        | _ => ([op], .normal, n + 1)
      else ([op], .normal, n)
  | .seq a b, orc, n =>
      match exec a orc n with
      | (t, .normal, n1) =>
          let r := exec b orc n1
          (t ++ r.1, r.2.1, r.2.2)
      | (t, o, n1) => (t, o, n1)
  | .ite c t e, orc, n =>
      match orc n with
      | .raise k => ([c], .raised k, n + 1)
      | .okT =>
          let r := exec t orc (n + 1)
          (c :: r.1, r.2.1, r.2.2)
      | .ok =>
          let r := exec e orc (n + 1)
          (c :: r.1, r.2.1, r.2.2)
  | .branchV _ t e, orc, n =>
      match orc n with
      | .okT => exec t orc (n + 1)
      | _ => exec e orc (n + 1)
  | .tryCatch b h, orc, n =>
      match exec b orc n with
      | (t, .raised _, n1) =>
          let r := exec h orc n1
          (t ++ r.1, r.2.1, r.2.2)
      | r => r
  | .tryCatchR b h, orc, n =>
      match exec b orc n with
      | (t, .raised k, n1) =>
          match exec h orc n1 with
          | (t2, .normal, n2) => (t ++ t2, .raised k, n2)
          | (t2, o2, n2) => (t ++ t2, o2, n2)
      | r => r
  | .tryFinally b f, orc, n =>
      match exec b orc n with
      | (t, o, n1) =>
          match exec f orc n1 with
          | (t2, .normal, n2) => (t ++ t2, o, n2)
          | (t2, o2, n2) => (t ++ t2, o2, n2)
  | .ret, _, n => ([], .returned, n)
  | .exitc c, _, n => ([], .exited c, n)

/-- All driver calls appearing anywhere in a statement (both branches of
conditionals included): the calls hard-coded in the script text. -/
def allOps : Stmt → List Op
  | .skip => []
  | .prim op => [op]
  | .seq a b => allOps a ++ allOps b
  | .ite c t e => c :: (allOps t ++ allOps e)
  | .branchV _ t e => allOps t ++ allOps e
  | .tryCatch b h => allOps b ++ allOps h
  | .tryCatchR b h => allOps b ++ allOps h
  | .tryFinally b f => allOps b ++ allOps f
  | .ret => []
  | .exitc _ => []

/-- A statement with no `return` and no `exit(n)` anywhere. -/
def noEsc : Stmt → Bool
  | .skip => true
  | .prim _ => true
  | .seq a b => noEsc a && noEsc b
  | .ite _ t e => noEsc t && noEsc e
  | .branchV _ t e => noEsc t && noEsc e
  | .tryCatch b h => noEsc b && noEsc h
  | .tryCatchR b h => noEsc b && noEsc h
  | .tryFinally b f => noEsc b && noEsc f
  | .ret => false
  | .exitc _ => false

/-- Sequence a list of statements, as the scripts' straight-line bodies. -/
def block (xs : List Stmt) : Stmt := xs.foldr Stmt.seq Stmt.skip

def isClose : Op → Bool
  | .close => true
  | _ => false

def isLaunch : Op → Bool
  | .launch => true
  | _ => false

def isClick : Op → Bool
  | .click _ _ _ => true
  | _ => false

def isForced : Op → Bool
  | .click _ f _ => f
  | .hover _ f => f
  | _ => false

def isForcedClick (op : Op) : Bool := isClick op && isForced op

def isHoverOp : Op → Bool
  | .hover _ _ => true
  | _ => false

/-- A read of a computed style value (`window.getComputedStyle`). -/
def isStyleRead : Op → Bool
  | .evalJs _ js => js = "el => window.getComputedStyle(el).opacity"
  | _ => false

/-- The script begins by launching a browser. -/
def startsWithLaunch : Stmt → Bool
  | .seq (.prim .launch) _ => true
  | _ => false

/-- URLs of all `goto` navigations hard-coded in a script. -/
def gotoUrls (sc : Stmt) : List String :=
  (allOps sc).filterMap fun op =>
    match op with
    | .goto u _ => some u
    | _ => none

/-- The (optional) explicit timeouts passed to `goto` navigations. -/
def gotoTimeouts (sc : Stmt) : List (Option Nat) :=
  (allOps sc).filterMap fun op =>
    match op with
    | .goto _ t => some t
    | _ => none

/-- `true` when the URL's scheme is `http`. -/
def isHttpUrl (u : String) : Bool := u.data.take 7 == "http://".data

def digitVal (c : Char) : Nat := c.toNat - 48

def digitsToNat (l : List Char) : Nat := l.foldl (fun a c => 10 * a + digitVal c) 0

/-- The port of a `http://localhost:PORT...` URL, if of that shape. -/
def portOf (u : String) : Option Nat :=
  if u.data.take 17 == "http://localhost:".data then
    some (digitsToNat ((u.data.drop 17).takeWhile Char.isDigit))
  else none

/-- Shorthand for a single driver call as a statement. -/
def P (op : Op) : Stmt := .prim op

/-- `try: click; except: click(force=true)` retry sites: a `tryCatch` whose
body is a single click and whose handler is a single forced click. -/
def retrySites : Stmt → List (Op × Op)
  | .skip => []
  | .prim _ => []
  | .seq a b => retrySites a ++ retrySites b
  | .ite _ t e => retrySites t ++ retrySites e
  | .branchV _ t e => retrySites t ++ retrySites e
  | .tryCatch b h =>
      (match b, h with
       | .prim c1, .prim c2 =>
           if isClick c1 && isClick c2 && isForced c2 then [(c1, c2)] else []
       | _, _ => []) ++ retrySites b ++ retrySites h
  | .tryCatchR b h => retrySites b ++ retrySites h
  | .tryFinally b f => retrySites b ++ retrySites f
  | .ret => []
  | .exitc _ => []

/-! ## The scripts

Each definition below embeds one source file (the statements executed when
the file is run as a script), in source order.  Blocks the claims refer to
individually are named sub-definitions used inside their script.
-/

/-- verify_settings.py: the `try`/`except` block that detects and closes the
"What's New" dialog; any exception is caught and printed. -/
def settings_whats_new_handling : Stmt :=
  .tryCatch
    (block [
      P (.waitForSelector "div[role=\x27dialog\x27][aria-labelledby=\x27whats-new-title\x27]" "visible" (some 5000)),
      .ite (.query "dialog.is_visible()")
        (block [
          P (.printMsg "What\x27s New dialog found. Attempting to close."),
          P (.press "Escape"),
          P (.waitForSelector "div[role=\x27dialog\x27][aria-labelledby=\x27whats-new-title\x27]" "hidden" (some 2000)),
          P (.printMsg "Dialog closed.")])
        .skip])
    (P (.printMsg "Dialog handling note"))

/-- verify_settings.py, `verify_settings()` (run on import as `__main__`). -/
def verify_settings : Stmt :=
  block [
    P .launch,
    P .newPage,
    P (.goto "http://localhost:8080" none),
    P (.waitForSelector "text=Pedro Pathing Visualizer" "visible" none),
    settings_whats_new_handling,
    .tryCatch (P (.waitForSelector "#loading-screen" "hidden" (some 5000)))
      (P (.printMsg "Loading screen didn\x27t disappear?")),
    P (.printMsg "Clicking Settings button..."),
    P (.click "button[aria-label=\"Settings\"]" false none),
    P (.waitForSelector "text=Settings" "visible" none),
    P (.printMsg "Expanding File & Saving section..."),
    P (.click "text=File & Saving" false none),
    P (.waitForSelector "text=Autosave Mode" "visible" none),
    .ite (.query "mode_select.is_visible()")
      .skip
      (block [P (.printMsg "Autosave Mode select not visible"), .exitc 1]),
    P (.misc "mode_select.select_option(time)"),
    P (.waitForSelector "text=Autosave Interval" "visible" none),
    .ite (.query "interval_select.is_visible()")
      .skip
      (block [P (.printMsg "Autosave Interval select not visible"), .exitc 1]),
    P (.screenshot "verification_settings.png"),
    P (.printMsg "Verification successful, screenshot saved."),
    P .close]

/-- verify_contact.py, `verify_contact_section(page)`. -/
def verify_contact_section : Stmt :=
  block [
    P (.goto "http://localhost:4173/" none),
    P (.misc "add_style_tag: #loading-screen display none"),
    P (.expectVisible "get_by_label(Settings)" false (some 10000)),
    P (.click "get_by_label(Settings)" false none),
    P (.expectVisible "get_by_role(dialog)" false none),
    P (.expectVisible "get_by_text(Credits & Legal)" false none),
    P (.click "get_by_text(Credits & Legal)" false none),
    P (.sleep 1000),
    P (.expectVisible "get_by_role(heading, Contact & Support)" false none),
    P (.expectVisible "get_by_role(link, GitHub Issues)" false none),
    P (.expectAttr "get_by_role(link, GitHub Issues)" "href" "https://github.com/Mallen220/PedroPathingVisualizer/issues"),
    P (.expectVisible "get_by_text(Discord: mallen20)" false none),
    P (.expectVisible "get_by_role(link, allenmc220@gmail.com)" false none),
    P (.expectAttr "get_by_role(link, allenmc220@gmail.com)" "href" "mailto:allenmc220@gmail.com"),
    P (.screenshot "verification_settings.png")]

/-- verify_contact.py: the `except` handler (prints, screenshots, re-raises). -/
def contact_fail_handler : Stmt :=
  block [P (.printMsg "Verification failed"), P (.screenshot "verification_failure.png")]

/-- verify_contact.py: the `try` body of `__main__`. -/
def contact_body : Stmt :=
  block [verify_contact_section, P (.printMsg "Verification successful!")]

/-- verify_contact.py: `try .. except .. raise e .. finally: browser.close()`. -/
def contact_guarded : Stmt :=
  .tryFinally (.tryCatchR contact_body contact_fail_handler) (P .close)

/-- verify_contact.py, `__main__`. -/
def verify_contact_main : Stmt :=
  block [P .launch, P .newPage, P (.misc "set_viewport_size 1280x720"), contact_guarded]

/-- verify_filemanager_sort.py, `verify_recent_files_sort(page)`. -/
def verify_recent_files_sort : Stmt :=
  block [
    P (.goto "http://localhost:4173" none),
    P (.click "get_by_title(File Manager)" false none),
    P (.waitForTimeout 500),
    P (.waitForSelector "get_by_role(button, Recent)" "visible" none),
    P (.waitForSelector "get_by_role(button, Name)" "visible" none),
    P (.waitForSelector "get_by_role(button, Date)" "visible" none),
    P (.screenshot "/home/jules/verification/filemanager_sort_recent.png"),
    P (.click "get_by_role(button, Name)" false none),
    P (.waitForTimeout 300),
    P (.waitForSelector "get_by_text(Current Directory:)" "visible" none),
    P (.screenshot "/home/jules/verification/filemanager_sort_name.png")]

/-- verify_filemanager_sort.py: `try .. except: print .. finally: close`. -/
def filemanager_guarded : Stmt :=
  .tryFinally
    (.tryCatch
      (block [verify_recent_files_sort, P (.printMsg "Verification script completed successfully.")])
      (P (.printMsg "Verification failed")))
    (P .close)

/-- verify_filemanager_sort.py, `__main__`. -/
def verify_filemanager_sort_main : Stmt :=
  block [P .launch, P .newPage, filemanager_guarded]

/-- verify_fix_v2.py: the "What's New" handling `try`/`except`. -/
def fix_v2_whats_new_handling : Stmt :=
  .tryCatch
    (.ite (.query "whats_new.is_visible()")
      (block [
        P (.printMsg "Found What\x27s New dialog, closing it..."),
        P (.press "Escape"),
        P (.expectVisible "div[aria-labelledby=\x27whats-new-title\x27]" true none),
        P (.printMsg "Closed What\x27s New dialog")])
      .skip)
    (P (.printMsg "Error handling dialog"))

/-- verify_fix_v2.py, `run(playwright)` (run on import). -/
def fix_v2_run : Stmt :=
  block [
    P .launch,
    P .newPage,
    P (.goto "http://localhost:4173/" none),
    P (.expectVisible "get_by_role(heading, Pedro Pathing Visualizer).first" false none),
    P (.sleep 1000),
    fix_v2_whats_new_handling,
    .ite (.query "loading_screen.is_visible()")
      (block [
        P (.printMsg "Waiting for loading screen to disappear..."),
        P (.expectVisible "#loading-screen" true (some 10000))])
      .skip,
    P (.printMsg "Opening Settings..."),
    P (.click "get_by_role(button, Settings)" false none),
    P (.expectVisible "get_by_role(dialog, Settings)" false none),
    P (.printMsg "Expanding Motion Parameters..."),
    P (.click "get_by_text(Motion Parameters)" false none),
    P (.expectVisible "get_by_role(button, pi rad/s)" false none),
    P (.expectVisible "get_by_role(button, deg/s)" false none),
    P (.printMsg "Verifying Unit Toggle..."),
    P (.query "angular-velocity.input_value()"),
    P (.printMsg "Initial Value (Rad Multiplier)"),
    P (.click "get_by_role(button, deg/s)" false none),
    P (.query "angular-velocity.input_value()"),
    P (.printMsg "Value in Deg/s"),
    .branchV "abs(deg_val - 180.0) > 0.1"
      (block [P (.printMsg "FAIL: Unit conversion incorrect"), .exitc 1])
      .skip,
    P (.printMsg "Verifying Max Angular Acceleration Input..."),
    P (.expectVisible "#max-angular-acceleration" false none),
    P (.fill "#max-angular-acceleration" "10"),
    P (.press "Enter"),
    P (.printMsg "Closing Settings..."),
    P (.click "get_by_role(button, Close, exact)" false none),
    P (.expectVisible "get_by_role(dialog, Settings)" true none),
    P (.screenshot "/home/jules/verification/verification_v2.png"),
    P (.printMsg "PASS: Verified Unit Toggle and New Input"),
    P .close]

/-- verify_font_size.py, `run(playwright)` (run on import). -/
def font_size_run : Stmt :=
  block [
    P .launch,
    P .newPage,
    .tryFinally
      (.tryCatch
        (block [
          P (.goto "http://localhost:3000" none),
          P (.waitForSelector "#settings-btn" "visible" (some 20000)),
          P (.evalJs "page" "remove driver-overlay and driver-popover, drop driver classes"),
          P (.waitForTimeout 500),
          P (.click "#settings-btn" true none),
          P (.waitForSelector "h2:has-text(\x27Settings\x27)" "visible" (some 5000)),
          P (.screenshot "verification_settings_open.png"),
          P (.click "get_by_role(button, Interface Settings)" true none),
          P (.waitForSelector "text=Program Font Size" "visible" (some 2000)),
          P (.screenshot "verification_default.png"),
          P (.fill "input#program-font-size" "150"),
          P (.waitForTimeout 1000),
          P (.evalJs "page" "document.documentElement.style.fontSize"),
          P (.printMsg "Font size"),
          .branchV "font_size == 150%"
            (P (.printMsg "Font size updated correctly in DOM"))
            (P (.printMsg "Font size NOT updated correctly")),
          P (.screenshot "verification_enlarged.png")])
        (block [P (.printMsg "Error"), P (.screenshot "error.png")]))
      (P .close)]

/-- verify_frontend.py: the "What's New" dialog handling `try`/`except`. -/
def frontend_dialog_handling : Stmt :=
  .tryCatch
    (.ite (.query "dialog.is_visible()")
      (block [
        P (.printMsg "Dialog detected. Attempting to close..."),
        P (.press "Escape"),
        P (.sleep 1000),
        .ite (.query "dialog.is_visible()")
          (block [
            P (.printMsg "Dialog still visible after Escape, trying close button..."),
            P (.click "dialog.locator(button).first" false none),
            P (.sleep 1000)])
          .skip])
      .skip)
    (P (.printMsg "Error handling dialog"))

/-- verify_frontend.py, `verify_frontend()` (run as `__main__`). -/
def verify_frontend : Stmt :=
  block [
    P .launch,
    P .newPage,
    P (.printMsg "Navigating to http://localhost:8080..."),
    P (.goto "http://localhost:8080" none),
    P (.printMsg "Waiting for loading screen to disappear..."),
    .tryCatch (P (.waitForSelector "#loading-screen" "hidden" (some 10000)))
      (P (.printMsg "Loading screen wait timeout, proceeding...")),
    P (.sleep 2000),
    frontend_dialog_handling,
    .tryCatch
      (block [
        .ite (.query "path_toggle.is_visible()")
          (.ite (.query "get_by_text(Target Position).is_visible()")
            .skip
            (block [
              P (.printMsg "Clicking Path 1 toggle"),
              P (.click "locator(button, has_text Path 1).first" false none),
              P (.sleep 500)]))
          .skip,
        .ite (.query "target_pos.is_visible()")
          (block [
            P (.printMsg "Target Position text is visible."),
            P (.evalJs "target_pos" "el => el.tagName"),
            P (.printMsg "Target Position tag"),
            .branchV "tag_name == SPAN"
              (P (.printMsg "SUCCESS: Target Position is a SPAN."))
              (P (.printMsg "FAILURE: Target Position tag")),
            P (.screenshot "verification_sidebar.png")])
          (P (.printMsg "Target Position text NOT visible."))])
      (P (.printMsg "Error verifying PathLineSection")),
    .tryCatch
      (block [
        P (.misc "add_wait_btn.scroll_into_view_if_needed()"),
        P (.click "button[title=\x27Add Wait After\x27].first" false none),
        P (.printMsg "Clicked Add Wait After"),
        P (.sleep 1000),
        .ite (.query "duration_label.is_visible()")
          (block [
            P (.printMsg "Duration (ms) label visible"),
            P (.query "duration_label.get_attribute(for)"),
            P (.printMsg "Label for attribute"),
            .branchV "for_attr truthy"
              (.ite (.query "input#for_attr.is_visible()")
                (P (.printMsg "SUCCESS: Found input with id for_attr"))
                (P (.printMsg "FAILURE: Input with id for_attr not found/visible")))
              (P (.printMsg "FAILURE: Label has no for attribute")),
            P (.screenshot "verification_wait.png")])
          (P (.printMsg "Duration (ms) label NOT visible"))])
      (P (.printMsg "Error verifying WaitSection")),
    .tryCatch
      (block [
        P (.misc "add_rotate_btn.scroll_into_view_if_needed()"),
        P (.click "button[title=\x27Add Rotate After\x27].first" false none),
        P (.printMsg "Clicked Add Rotate After"),
        P (.sleep 1000),
        .ite (.query "heading_label.is_visible()")
          (block [
            P (.printMsg "Heading (deg) label visible"),
            P (.query "heading_label.get_attribute(for)"),
            P (.printMsg "Label for attribute"),
            .branchV "for_attr truthy"
              (.ite (.query "input#for_attr.is_visible()")
                (P (.printMsg "SUCCESS: Found input with id for_attr"))
                (P (.printMsg "FAILURE: Input with id for_attr not found/visible")))
              (P (.printMsg "FAILURE: Label has no for attribute")),
            P (.screenshot "verification_rotate.png")])
          .skip])
      (P (.printMsg "Error verifying RotateSection")),
    P .close]

/-- verify_history.py, `verify_history_panel()` (run as `__main__`). -/
def verify_history_panel : Stmt :=
  block [
    P .launch,
    P .newPage,
    P (.misc "add_init_script: seed pedro-settings localStorage, hasSeenOnboarding"),
    .tryCatch (P (.goto "http://localhost:5173" (some 30000)))
      (block [P (.printMsg "Failed to load page"), .ret]),
    .tryCatch (P (.waitForSelector "text=Pedro Pathing Visualizer" "visible" (some 10000)))
      (block [P (.printMsg "Timeout waiting for title"), P (.screenshot "debug_timeout.png"), .ret]),
    P (.printMsg "App loaded"),
    .tryCatch (block [P (.press "Escape"), P (.sleep 500)]) .skip,
    P (.printMsg "Clicking Add Path..."),
    .tryCatch
      (block [
        P (.sleep 1000),
        P (.click "get_by_role(button, Add Path after start)" false none),
        P (.sleep 500),
        P (.printMsg "Clicking Add Wait..."),
        P (.click "get_by_role(button, Add Wait after start)" false none),
        P (.sleep 500)])
      (block [P (.printMsg "Failed to click buttons"), P (.screenshot "debug_click_fail.png")]),
    P (.printMsg "Opening History Dropdown..."),
    .tryCatch
      (block [P (.click "get_by_role(button, History)" false none), P (.sleep 1000)])
      (block [P (.printMsg "Failed to open history dropdown"), P (.screenshot "debug_dropdown_fail.png"), .ret]),
    P (.screenshot "verification_history.png"),
    P (.printMsg "Screenshot taken: verification_history.png"),
    P .close]

/-- verification/capture_screenshot.py builds its target URL with
`os.path.abspath`, which resolves against the process working directory; a
representative absolute path is fixed here.  Only its `file://` scheme
matters to any property below. -/
def page_content_abspath : String := "/app/verification/page_content.html"

/-- See `page_content_abspath`. -/
def simulation_preview_abspath : String := "/app/verification/simulation_page_preview.png"

/-- verification/capture_screenshot.py, `run()`. -/
def capture_screenshot_run : Stmt :=
  block [
    P .launch,
    P .newPage,
    P (.goto ("file://" ++ page_content_abspath) none),
    P (.screenshot simulation_preview_abspath),
    P (.printMsg "Screenshot saved to"),
    P .close]

/-- verification/verify_aria.py, `verify_aria_labels()` (async; identical call
sequence). -/
def verify_aria_labels : Stmt :=
  block [
    P .launch,
    P .newPage,
    .tryCatch
      (block [P (.goto "http://localhost:4173" none), P (.waitForLoadState "networkidle")])
      (block [P (.printMsg "Failed to load page"), P .close, .ret]),
    P (.printMsg "Page loaded."),
    P (.printMsg "Checking Navbar ARIA labels..."),
    P (.expectVisible "get_by_label(Open File Manager)" false none),
    P (.printMsg "File Manager button has correct label"),
    P (.expectVisible "get_by_label(Toggle Grid)" false none),
    P (.printMsg "Grid toggle has correct label"),
    P (.expectVisible "get_by_label(Toggle Ruler)" false none),
    P (.printMsg "Ruler toggle has correct label"),
    P (.printMsg "Opening File Manager..."),
    P (.click "get_by_label(Open File Manager)" false none),
    P (.expectVisible "button[title=\x27Close\x27]" false none),
    P (.printMsg "Checking File Manager ARIA labels..."),
    P (.expectVisible "get_by_role(button, Name)" false none),
    P (.expectVisible "get_by_role(button, Recent)" false none),
    P (.query "name_sort.get_attribute(aria-pressed)"),
    P (.printMsg "Name sort aria-pressed"),
    P (.click "get_by_role(button, Recent)" false none),
    P (.query "recent_sort.get_attribute(aria-pressed)"),
    P (.printMsg "Recent sort aria-pressed after click"),
    P (.screenshot "verification/aria_verification.png"),
    P (.printMsg "Screenshot taken at verification/aria_verification.png"),
    P .close]

/-- verification/verify_command_palette.py, `verify_command_palette(page)`. -/
def verify_command_palette : Stmt :=
  block [
    P (.goto "http://localhost:4173" none),
    P (.sleep 2000),
    P (.press "Control+p"),
    P (.waitForSelector "input[placeholder=\x27Type a command or search...\x27]" "visible" (some 5000)),
    P (.fill "input[placeholder=\x27Type a command or search...\x27]" "Zoom"),
    P (.expectVisible "get_by_text(Zoom to Fit)" false none),
    P (.screenshot "verification/command_palette_zoom.png"),
    P (.fill "input[placeholder=\x27Type a command or search...\x27]" ""),
    P (.fill "input[placeholder=\x27Type a command or search...\x27]" "Ghost"),
    P (.expectVisible "get_by_text(Toggle Ghost Paths)" false none),
    P (.screenshot "verification/command_palette_ghost.png")]

/-- verification/verify_command_palette.py: `try/except/finally` of `__main__`. -/
def command_palette_guarded : Stmt :=
  .tryFinally
    (.tryCatch (block [verify_command_palette, P (.printMsg "Verification successful!")])
      (block [P (.printMsg "Verification failed"), P (.screenshot "verification/failure.png")]))
    (P .close)

/-- verification/verify_command_palette.py, `__main__`. -/
def verify_command_palette_main : Stmt :=
  block [P .launch, P .newPage, P (.misc "set_viewport_size 1280x720"), command_palette_guarded]

/-- verification/verify_feature.py: the "What's New" close attempt. -/
def feature_whats_new_handling : Stmt :=
  .tryCatch
    (.ite (.query "is_visible(text=What\x27s New)")
      (block [P (.printMsg "Closing What\x27s New..."), P (.click "button[aria-label=\x27Close\x27]" false none)])
      .skip)
    (P (.printMsg "Note"))

/-- verification/verify_feature.py: the tutorial "Skip" attempt. -/
def feature_skip_handling : Stmt :=
  .tryCatch
    (.ite (.query "is_visible(text=Skip)")
      (block [P (.printMsg "Skipping tutorial..."), P (.click "text=Skip" false none)])
      .skip)
    (P (.printMsg "Note"))

/-- verification/verify_feature.py, `run(playwright)`. -/
def feature_run : Stmt :=
  block [
    P .launch,
    P .newPage,
    P (.misc "set_viewport_size 1280x720"),
    P (.printMsg "Navigating..."),
    P (.goto "http://localhost:4173/" none),
    P (.waitForLoadState "networkidle"),
    feature_whats_new_handling,
    feature_skip_handling,
    P (.printMsg "Opening Export menu..."),
    P (.click "text=Export" false none),
    P (.printMsg "Clicking Strategy Sheet..."),
    P (.click "text=Strategy Sheet" false none),
    P (.printMsg "Waiting for dialog..."),
    P (.waitForSelector "text=Strategy Sheet Preview" "visible" none),
    P (.waitForTimeout 1000),
    P (.printMsg "Taking screenshot..."),
    P (.screenshot "verification/strategy_sheet.png"),
    P .close]

/-- verification/verify_focus.py: the first "Add Path" click. -/
def focus_first_click : Op := .click "get_by_label(Add new path segment).first" false (some 2000)

/-- verification/verify_focus.py: the forced retry click in the bare `except`. -/
def focus_forced_click : Op := .click "get_by_label(Add new path segment).first" true none

/-- verification/verify_focus.py: `try: click(timeout=2000); except: click(force=True)`. -/
def focus_click_retry : Stmt := .tryCatch (.prim focus_first_click) (.prim focus_forced_click)

/-- verification/verify_focus.py, `run()`. -/
def focus_run : Stmt :=
  block [
    P .launch,
    P .newPage,
    P (.goto "http://localhost:5173" none),
    P (.waitForTimeout 2000),
    P (.press "Escape"),
    P (.waitForTimeout 500),
    P (.press "Escape"),
    P (.waitForTimeout 500),
    .ite (.query "add_path.count() > 0")
      focus_click_retry
      .skip,
    .ite (.query "show_cp_btns.count() > 0")
      (block [
        P (.query "show_cp_btn.get_attribute(title)"),
        .branchV "Show in title"
          (P (.click "button[title*=\"control points\"].first" false none))
          .skip])
      .skip,
    .ite (.query "add_cp_btns.count() > 0")
      (block [
        P (.click "get_by_label(Add Control Point).first" false none),
        P (.waitForTimeout 200),
        P (.click "get_by_label(Add Control Point).first" false none),
        P (.waitForTimeout 200)])
      .skip,
    .ite (.query "move_up_btns.count() >= 2")
      (block [
        P (.focusOp "get_by_label(Move control point up).nth(1)"),
        P (.waitForTimeout 500),
        P (.screenshot "verification/focus_visible.png")])
      (block [
        P (.printMsg "Could not find enough control points buttons"),
        P (.screenshot "verification/debug.png")]),
    P .close]

/-- verification/verify_rotate.py, `test_add_rotate_features()`. -/
def test_add_rotate_features : Stmt :=
  block [
    P .launch,
    P .newContext,
    P .newPage,
    .tryFinally
      (.tryCatch
        (block [
          P (.goto "http://localhost:5173" none),
          P (.waitForSelector "text=Path 1" "visible" (some 10000)),
          P (.misc "mouse.click(10, 10)"),
          P (.press "Escape"),
          P (.sleep 2000),
          P (.evalJs "page" "querySelectorAll([role=dialog]).forEach remove"),
          P (.sleep 1000),
          P (.click "text=Add Rotate >> nth=0" false none),
          P (.screenshot "verification/1_add_rotate_at_start.png"),
          P (.misc "page.reload()"),
          P (.waitForSelector "text=Path 1" "visible" (some 10000)),
          P (.press "Escape"),
          P (.evalJs "page" "querySelectorAll([role=dialog]).forEach remove"),
          P (.sleep 1000),
          .ite (.query "path_rotate_btn.is_visible()")
            (P (.click "button[title=\x27Add Rotate After\x27].first" false none))
            (P (.printMsg "Could not find Add Rotate After button for Path")),
          P (.screenshot "verification/2_add_rotate_after_path.png"),
          P (.click "locator(text=Add Wait).last" false none),
          .ite (.query "wait_rotate_btn.is_visible()")
            (P (.click "button[title=\x27Add Rotate After\x27].last" false none))
            (P (.printMsg "Could not find Add Rotate After button for Wait")),
          P (.screenshot "verification/3_add_rotate_after_wait.png"),
          P (.printMsg "Verification script completed.")])
        (block [P (.printMsg "Error"), P (.screenshot "verification/error.png")]))
      (P .close)]

/-- verification/verify_script_v2.py: the "What's New" close `try`/`except`. -/
def script_v2_dialog_handling : Stmt :=
  .tryCatch
    (.ite (.query "close_btn.is_visible()")
      (block [
        P (.click "button[aria-label=\x27Close\x27].first" false none),
        P (.printMsg "Closed \x27What\x27s New\x27 dialog.")])
      (block [P (.press "Escape"), P (.printMsg "Pressed Escape to close dialog.")]))
    (P (.printMsg "Error closing dialog"))

/-- verification/verify_script_v2.py, `verify_path_stats()`.  (The reassignment
`stats_btn = page.get_by_text("Stats", exact=True)` on the not-visible branch
of the first check is pure Python and performs no driver call.) -/
def verify_path_stats : Stmt :=
  block [
    P .launch,
    P .newPage,
    .tryCatch (P (.goto "http://localhost:5173" (some 20000)))
      (block [P (.printMsg "Failed to load page"), .ret]),
    P (.waitForTimeout 2000),
    script_v2_dialog_handling,
    P (.waitForTimeout 1000),
    .tryCatch
      (.ite (.query "add_rotate_btn.is_visible()")
        (block [
          P (.click "get_by_role(button, Add Rotate)" false none),
          P (.printMsg "Clicked \x27Add Rotate\x27 button.")])
        (P (.printMsg "\x27Add Rotate\x27 button not visible.")))
      (P (.printMsg "Error adding rotate")),
    P (.waitForTimeout 500),
    .tryCatch
      (block [
        .ite (.query "stats_btn(View path statistics).is_visible()") .skip .skip,
        .ite (.query "stats_btn.is_visible()")
          (block [P (.click "stats_btn" false none), P (.printMsg "Clicked \x27Stats\x27 button.")])
          (P (.printMsg "Stats button not found."))])
      (P (.printMsg "Error opening stats")),
    P (.waitForTimeout 1000),
    P (.screenshot "verification/path_stats_dialog.png"),
    P (.printMsg "Screenshot saved to verification/path_stats_dialog.png"),
    P .close]

/-- verification/verify_setup.py, `verify_setup_dialog()`. -/
def verify_setup_dialog : Stmt :=
  block [
    P .launch,
    P .newContext,
    P (.misc "add_init_script: mock window.electronAPI"),
    P .newPage,
    P (.goto "http://localhost:4173" none),
    .tryCatch
      (block [
        P (.waitForSelector "text=Select Your AutoPaths Directory" "visible" (some 10000)),
        P (.printMsg "Setup dialog found!")])
      (block [
        P (.printMsg "Setup dialog NOT found!"),
        P (.screenshot "/home/jules/verification/verification_failure.png"),
        P .close,
        .ret]),
    P (.screenshot "/home/jules/verification/verification.png"),
    P .close]

/-- verification/verify_timeline.py, `run()`. -/
def timeline_run : Stmt :=
  block [
    P .launch,
    P .newPage,
    P (.goto "http://localhost:5173" none),
    P (.waitForSelector "text=Paths" "visible" none),
    P (.waitForSelector "#loading-screen" "hidden" none),
    .tryCatch (P (.press "Escape")) .skip,
    P (.waitForTimeout 1000),
    P (.click "get_by_role(button, Add Path).first" false none),
    P (.click "get_by_role(button, Add wait command)" false none),
    P (.click "get_by_role(button, Add rotate command)" false none),
    .ite (.query "markers_btn.count() > 0")
      (block [
        P (.click "button[title*=\x27event markers\x27].first" false none),
        P (.waitForTimeout 500),
        P (.click "locator(button, has_text Add Marker).first" false none)])
      (P (.printMsg "Could not find Event Markers button")),
    P (.waitForTimeout 500),
    P (.screenshot "verification/timeline_full.png"),
    .ite (.query "controls.count() > 0")
      (P (.screenshot "verification/timeline_controls.png"))
      .skip,
    P (.printMsg "Screenshots taken"),
    P .close]

/-- verification/verify_timeline_hover.py: the first "Add Path" click. -/
def hover_first_click : Op := .click "get_by_role(button, Add Path)" false none

/-- verification/verify_timeline_hover.py: the forced retry click. -/
def hover_forced_click : Op := .click "get_by_role(button, Add Path)" true none

/-- verification/verify_timeline_hover.py: `try: click(); except: click(force=True)`. -/
def hover_click_retry : Stmt := .tryCatch (.prim hover_first_click) (.prim hover_forced_click)

/-- The computed-style read of the marker in verify_timeline_hover.py. -/
def markerOpacityRead : Op := .evalJs "first_marker" "el => window.getComputedStyle(el).opacity"

/-- The computed-style read of the tooltip in verify_timeline_hover.py (the
same expression is evaluated once before and once after the hover). -/
def tooltipOpacityRead : Op := .evalJs "tooltip" "el => window.getComputedStyle(el).opacity"

/-- The forced hover between the two tooltip style reads. -/
def markerHover : Op := .hover "first_marker" true

/-- verification/verify_timeline_hover.py, `run(playwright)` (run on import). -/
def timeline_hover_run : Stmt :=
  block [
    P .launch,
    P .newPage,
    .tryCatch (P (.goto "http://localhost:4173" none))
      (block [P (.printMsg "Could not connect to localhost:4173."), .ret]),
    P (.waitForLoadState "networkidle"),
    .ite (.query "dialog.count() > 0")
      (.ite (.query "dialog.first.is_visible()")
        (block [P (.press "Escape"), P (.waitForTimeout 500)])
        .skip)
      .skip,
    .ite (.query "add_path_btn.is_visible()")
      (block [hover_click_retry, P (.waitForTimeout 500)])
      .skip,
    .ite (.query "markers.count() > 0")
      (block [
        .prim markerOpacityRead,
        P (.printMsg "Marker opacity"),
        .branchV "marker_opacity != 1"
          (P (.printMsg "Error: Marker should be visible"))
          .skip,
        .prim tooltipOpacityRead,
        P (.printMsg "Initial tooltip opacity"),
        .branchV "tooltip_opacity != 0"
          (P (.printMsg "Error: Tooltip should be hidden initially"))
          (P (.printMsg "Verified: Tooltip is hidden initially")),
        .prim markerHover,
        P (.waitForTimeout 300),
        .prim tooltipOpacityRead,
        P (.printMsg "Hover tooltip opacity"),
        .branchV "tooltip_opacity_hover == 1"
          (P (.printMsg "Verified: Tooltip is visible on hover"))
          (P (.printMsg "Error: Tooltip should be visible on hover")),
        P (.screenshot "verification/verification.png")])
      (P (.printMsg "No markers found")),
    P .close]

/-- verification/verify_whats_new.py, `test_whats_new_dialog(page)`. -/
def test_whats_new_dialog : Stmt :=
  block [
    P (.goto "http://localhost:5173" none),
    .tryCatch (P (.waitForSelector "#loading-screen" "detached" (some 5000))) .skip,
    P (.waitForTimeout 1000),
    P (.press "Shift+N"),
    P (.expectVisible "get_by_role(dialog, What\x27s New)" false (some 5000)),
    P (.screenshot "verification/whats_new_grid.png"),
    P (.fill "get_by_placeholder(Search...)" "version"),
    P (.waitForTimeout 1000),
    P (.screenshot "verification/whats_new_search.png"),
    P (.fill "get_by_placeholder(Search...)" ""),
    P (.click "get_by_role(button, Release Notes)" false none),
    P (.waitForTimeout 1000),
    P (.screenshot "verification/whats_new_release_list.png"),
    P (.click "get_by_role(button, Version 2.0.0 Highlights)" false none),
    P (.waitForTimeout 1000),
    P (.expectVisible "get_by_role(heading, Version 2.0.0 Highlights)" false none),
    P (.expectVisible "get_by_text(What\x27s New in 2.0.0)" false none),
    P (.screenshot "verification/whats_new_content.png")]

/-- verification/verify_whats_new.py, `__main__` (`try .. finally: close`). -/
def verify_whats_new_main : Stmt :=
  block [P .launch, P .newPage, .tryFinally test_whats_new_dialog (P .close)]

/-- The 18 source files, each as the statement its `__main__` / import runs. -/
def allScripts : List Stmt :=
  [verify_settings, verify_contact_main, verify_filemanager_sort_main, fix_v2_run,
   font_size_run, verify_frontend, verify_history_panel, capture_screenshot_run,
   verify_aria_labels, verify_command_palette_main, feature_run, focus_run,
   test_add_rotate_features, verify_path_stats, verify_setup_dialog, timeline_run,
   timeline_hover_run, verify_whats_new_main]

/-! ## Collected data over all scripts -/

/-- Every hard-coded navigation URL, across all 18 scripts. -/
def allGotoUrls : List String := (allScripts.map gotoUrls).flatten

/-- The hard-coded navigation URLs with scheme `http`. -/
def httpUrls : List String := allGotoUrls.filter isHttpUrl

/-- The localhost ports of the `http` navigation targets. -/
def httpPorts : List Nat := httpUrls.filterMap portOf

/-- Every timeout explicitly passed to a `goto` navigation, across all scripts. -/
def explicitGotoTimeouts : List Nat :=
  ((allScripts.map gotoTimeouts).flatten).filterMap id

/-- All `try: click; except: click(force=true)` sites, across all scripts. -/
def allRetrySites : List (Op × Op) := (allScripts.map retrySites).flatten

/-- All computed-style reads, across all scripts. -/
def allStyleReads : List Op :=
  (allScripts.map (fun sc => (allOps sc).filter isStyleRead)).flatten

/-! ## Oracles used by concrete runs -/

/-- Every driver call succeeds; every driver read used as a condition is false. -/
def orcAllOk : Nat → Resp := fun _ => .ok

/-- Every driver call raises. -/
def orcAllRaise : Nat → Resp := fun _ => .raise .timeoutErr

/-- For `timeline_hover_run`: the `goto` (oracle index 2) times out. -/
def orcGotoFails : Nat → Resp := fun n => if n == 2 then .raise .timeoutErr else .ok

/-- For `verify_filemanager_sort_main`: the wait for the "Recent" sort button
(oracle index 5) times out; everything else succeeds. -/
def orcRecentMissing : Nat → Resp := fun n => if n == 5 then .raise .timeoutErr else .ok

/-- For `focus_run`: `add_path.count() > 0` (index 8) is true, the first click
(index 9) fails with `notFound`; everything else succeeds. -/
def orcClickNotFound : Nat → Resp :=
  fun n => if n == 9 then .raise .notFound else if n == 8 then .okT else .ok

/-- For `timeline_hover_run`: the dialog is detected as present and visible
(indices 4, 5) and the `Escape` key press (index 6) raises. -/
def orcEscapeFails : Nat → Resp :=
  fun n => if n == 6 then .raise .other else if n == 4 || n == 5 then .okT else .ok

/-! ## The application under test, modelled from the spec (for C8)

Modelled from the spec: the visualizer web application itself — the system the
scripts drive — is not among the provided source files (only the verification
scripts are).  Spec section 3 fixes the declarative `Interaction` / `Assertion`
variants and section 8 fixes the scenario behaviour used here: the page has a
button `[aria-label=Settings]`, and clicking it opens a dialog `[role=dialog]`.
-/

/-- Spec section 3: a single simulated user action. -/
inductive Interaction where
  | clickI (sel : String)
  | fillI (sel : String) (value : String)
  | keyPressI (key : String)
  | hoverI (sel : String)
  | focusI (sel : String)
deriving DecidableEq, Repr

/-- Spec section 3: a predicate over current page state. -/
inductive Assertion where
  | visible (sel : String)
  | attributeEquals (sel : String) (attrName : String) (expected : String)
  | textPresent (t : String)
  | computedStyleEquals (sel : String) (prop : String) (expected : String)
deriving DecidableEq, Repr

/-- Spec glossary: the pass/fail result of evaluating one Assertion. -/
inductive Verdict where
  | pass
  | failV (reason : String)
deriving DecidableEq, Repr

/-- Modelled from the spec (section 8 scenario): the only page state the
scenario observes is whether the Settings dialog is open. -/
structure AppState where
  settingsDialogOpen : Bool
deriving DecidableEq, Repr

/-- The page right after navigation: no dialog open yet. -/
def initialApp : AppState := { settingsDialogOpen := false }

/-- Modelled from the spec: clicking `[aria-label=Settings]` opens the
Settings dialog; other interactions do not affect the observed state. -/
def appApply (st : AppState) : Interaction → AppState
  | .clickI sel =>
      if sel = "[aria-label=Settings]" then { settingsDialogOpen := true } else st
  | _ => st

/-- Modelled from the spec: `[role=dialog]` is visible exactly when the
Settings dialog is open; the `[aria-label=Settings]` button is always there. -/
def appSelectorVisible (st : AppState) (sel : String) : Bool :=
  if sel = "[role=dialog]" then st.settingsDialogOpen
  else if sel = "[aria-label=Settings]" then true
  else false

/-- Spec section 4.4: `check(session, assertion) -> Verdict` for the visibility
assertion the section 8 scenario uses. -/
def checkAssertion (st : AppState) : Assertion → Verdict
  | .visible sel =>
      if appSelectorVisible st sel then .pass else .failV "element not visible"
  | _ => .failV "assertion not modelled"

/-! ## General lemmas about `exec` -/

/-- A single call always contributes exactly its own op to the trace. -/
theorem exec_prim_trace (op : Op) (orc : Nat → Resp) (n : Nat) :
    (exec (.prim op) orc n).1 = [op] := by
  simp only [exec]
  cases hf : fallible op
  · simp [hf]
  · simp only [hf, if_true]
    cases horc : orc n <;> rfl

/-- Sequencing two statements on a cons list. -/
theorem block_cons (x : Stmt) (xs : List Stmt) : block (x :: xs) = .seq x (block xs) := rfl

/-- The trace of a run is a sublist of the calls written in the script: the
language has no loops, so no call site can execute more than once. -/
theorem exec_trace_sublist (sc : Stmt) (orc : Nat → Resp) :
    ∀ n : Nat, ((exec sc orc n).1).Sublist (allOps sc) := by
  induction sc with
  | skip => intro n; simp [exec, allOps]
  | prim op => intro n; rw [exec_prim_trace]; simp [allOps]
  | seq a b iha ihb =>
      intro n
      simp only [exec, allOps]
      rcases h : exec a orc n with ⟨t, o, n1⟩
      have ha : t.Sublist (allOps a) := by have := iha n; rw [h] at this; exact this
      cases o
      · exact List.Sublist.append ha (ihb n1)
      all_goals exact ha.trans (List.sublist_append_left _ _)
  | ite c t e iht ihe =>
      intro n
      simp only [exec, allOps]
      cases horc : orc n
      · exact ((ihe (n + 1)).trans (List.sublist_append_right _ _)).cons₂ c
      · exact ((iht (n + 1)).trans (List.sublist_append_left _ _)).cons₂ c
      · exact (List.nil_sublist _).cons₂ c
  | branchV d t e iht ihe =>
      intro n
      simp only [exec, allOps]
      cases horc : orc n
      · exact (ihe (n + 1)).trans (List.sublist_append_right _ _)
      · exact (iht (n + 1)).trans (List.sublist_append_left _ _)
      · exact (ihe (n + 1)).trans (List.sublist_append_right _ _)
  | tryCatch b h ihb ihh =>
      intro n
      simp only [exec, allOps]
      rcases hb : exec b orc n with ⟨t, o, n1⟩
      have hbs : t.Sublist (allOps b) := by have := ihb n; rw [hb] at this; exact this
      cases o
      all_goals first
        | exact List.Sublist.append hbs (ihh n1)
        | exact hbs.trans (List.sublist_append_left _ _)
  | tryCatchR b h ihb ihh =>
      intro n
      simp only [exec, allOps]
      rcases hb : exec b orc n with ⟨t, o, n1⟩
      have hbs : t.Sublist (allOps b) := by have := ihb n; rw [hb] at this; exact this
      cases o
      case raised k =>
        dsimp only
        rcases hh : exec h orc n1 with ⟨t2, o2, n2⟩
        have hhs : t2.Sublist (allOps h) := by have := ihh n1; rw [hh] at this; exact this
        cases o2 <;> exact List.Sublist.append hbs hhs
      all_goals exact hbs.trans (List.sublist_append_left _ _)
  | tryFinally b f ihb ihf =>
      intro n
      simp only [exec, allOps]
      rcases hb : exec b orc n with ⟨t, o, n1⟩
      have hbs : t.Sublist (allOps b) := by have := ihb n; rw [hb] at this; exact this
      rcases hf : exec f orc n1 with ⟨t2, o2, n2⟩
      have hfs : t2.Sublist (allOps f) := by have := ihf n1; rw [hf] at this; exact this
      cases o2 <;> exact List.Sublist.append hbs hfs
  | ret => intro n; simp [exec, allOps]
  | exitc c => intro n; simp [exec, allOps]

/-- A statement with no `return` / `exit` either completes normally or raises. -/
theorem exec_noEsc (sc : Stmt) (h : noEsc sc = true) (orc : Nat → Resp) :
    ∀ n : Nat, (exec sc orc n).2.1 = .normal ∨ ∃ k, (exec sc orc n).2.1 = .raised k := by
  induction sc with
  | skip => intro n; left; rfl
  | prim op =>
      intro n
      simp only [exec]
      cases hf : fallible op
      · simp [hf]
      · simp only [hf, if_true]
        cases horc : orc n
        · left; rfl
        · left; rfl
        · right; exact ⟨_, rfl⟩
  | seq a b iha ihb =>
      intro n
      simp only [noEsc, Bool.and_eq_true] at h
      simp only [exec]
      rcases ha : exec a orc n with ⟨t, o, n1⟩
      have hoa := iha h.1 n; rw [ha] at hoa
      cases o
      · exact ihb h.2 n1
      case raised k => right; exact ⟨k, rfl⟩
      · rcases hoa with h' | ⟨k, h'⟩ <;> simp at h'
      · rcases hoa with h' | ⟨k, h'⟩ <;> simp at h'
  | ite c t e iht ihe =>
      intro n
      simp only [noEsc, Bool.and_eq_true] at h
      simp only [exec]
      cases horc : orc n
      · exact ihe h.2 (n + 1)
      · exact iht h.1 (n + 1)
      · right; exact ⟨_, rfl⟩
  | branchV d t e iht ihe =>
      intro n
      simp only [noEsc, Bool.and_eq_true] at h
      simp only [exec]
      cases horc : orc n
      · exact ihe h.2 (n + 1)
      · exact iht h.1 (n + 1)
      · exact ihe h.2 (n + 1)
  | tryCatch b hh ihb ihh =>
      intro n
      simp only [noEsc, Bool.and_eq_true] at h
      simp only [exec]
      rcases hb : exec b orc n with ⟨t, o, n1⟩
      have hob := ihb h.1 n; rw [hb] at hob
      cases o
      · left; rfl
      · exact ihh h.2 n1
      · rcases hob with h' | ⟨k, h'⟩ <;> simp at h'
      · rcases hob with h' | ⟨k, h'⟩ <;> simp at h'
  | tryCatchR b hh ihb ihh =>
      intro n
      simp only [noEsc, Bool.and_eq_true] at h
      simp only [exec]
      rcases hb : exec b orc n with ⟨t, o, n1⟩
      have hob := ihb h.1 n; rw [hb] at hob
      cases o
      · left; rfl
      case raised k =>
        dsimp only
        rcases hh2 : exec hh orc n1 with ⟨t2, o2, n2⟩
        have hoh := ihh h.2 n1; rw [hh2] at hoh
        cases o2
        · right; exact ⟨k, rfl⟩
        case raised k2 => right; exact ⟨k2, rfl⟩
        · rcases hoh with h' | ⟨k2, h'⟩ <;> simp at h'
        · rcases hoh with h' | ⟨k2, h'⟩ <;> simp at h'
      · rcases hob with h' | ⟨k, h'⟩ <;> simp at h'
      · rcases hob with h' | ⟨k, h'⟩ <;> simp at h'
  | tryFinally b f ihb ihf =>
      intro n
      simp only [noEsc, Bool.and_eq_true] at h
      simp only [exec]
      rcases hb : exec b orc n with ⟨t, o, n1⟩
      have hob := ihb h.1 n; rw [hb] at hob
      rcases hf : exec f orc n1 with ⟨t2, o2, n2⟩
      have hof := ihf h.2 n1; rw [hf] at hof
      cases o2
      · cases o
        · left; rfl
        case raised k => right; exact ⟨k, rfl⟩
        · rcases hob with h' | ⟨k, h'⟩ <;> simp at h'
        · rcases hob with h' | ⟨k, h'⟩ <;> simp at h'
      case raised k2 => right; exact ⟨k2, rfl⟩
      · rcases hof with h' | ⟨k, h'⟩ <;> simp at h'
      · rcases hof with h' | ⟨k, h'⟩ <;> simp at h'
  | ret => intro n; simp [noEsc] at h
  | exitc c => intro n; simp [noEsc] at h

/-- A `try .. except: print(..)` block never lets an exception (or any other
non-normal outcome) escape, provided its body has no `return` / `exit`. -/
theorem tryCatch_print_normal (b : Stmt) (m : String) (hb : noEsc b = true)
    (orc : Nat → Resp) (n : Nat) :
    (exec (.tryCatch b (P (.printMsg m))) orc n).2.1 = .normal := by
  simp only [exec]
  rcases h : exec b orc n with ⟨t, o, n1⟩
  have hob := exec_noEsc b hb orc n; rw [h] at hob
  cases o
  · rfl
  · rfl
  · rcases hob with h' | ⟨k, h'⟩ <;> simp at h'
  · rcases hob with h' | ⟨k, h'⟩ <;> simp at h'

/-- A script that begins with a browser launch puts the launch first in every
trace. -/
theorem exec_launch_head (sc : Stmt) (h : startsWithLaunch sc = true)
    (orc : Nat → Resp) (n : Nat) :
    ∃ t, (exec sc orc n).1 = Op.launch :: t := by
  match sc, h with
  | .seq (.prim .launch) b, _ =>
      simp only [exec]
      cases horc : orc n
      · exact ⟨(exec b orc (n + 1)).1, by simp [fallible, horc]⟩
      · exact ⟨(exec b orc (n + 1)).1, by simp [fallible, horc]⟩
      · exact ⟨[], by simp [fallible, horc]⟩

/-- A script that begins with a launch and whose text contains exactly one
launch performs exactly one launch on every run. -/
theorem countP_launch_one (sc : Stmt) (h1 : startsWithLaunch sc = true)
    (h2 : (allOps sc).countP isLaunch = 1) (orc : Nat → Resp) (n : Nat) :
    ((exec sc orc n).1).countP isLaunch = 1 := by
  have hle : ((exec sc orc n).1).countP isLaunch ≤ 1 :=
    h2 ▸ (exec_trace_sublist sc orc n).countP_le isLaunch
  obtain ⟨t, ht⟩ := exec_launch_head sc h1 orc n
  have hge : 1 ≤ ((exec sc orc n).1).countP isLaunch := by
    rw [ht, List.countP_cons]
    simp [isLaunch]
  omega

/-- A trace of a statement whose text contains no `close` contains no `close`. -/
theorem exec_no_close (B : Stmt) (hb : (allOps B).countP isClose = 0)
    (orc : Nat → Resp) (n : Nat) : ((exec B orc n).1).countP isClose = 0 :=
  Nat.le_zero.mp (hb ▸ (exec_trace_sublist B orc n).countP_le isClose)

/-- A `try .. finally: browser.close()` closes exactly once, whatever its body
does (raise, return, exit, or complete). -/
theorem tryFinally_close_count (B : Stmt) (hb : (allOps B).countP isClose = 0)
    (orc : Nat → Resp) (n : Nat) :
    ((exec (.tryFinally B (P .close)) orc n).1).countP isClose = 1 := by
  simp only [exec]
  rcases hB : exec B orc n with ⟨t, o, n1⟩
  have ht : t.countP isClose = 0 := by
    have := exec_no_close B hb orc n; rw [hB] at this; exact this
  dsimp only
  cases horc : orc n1 <;>
    simp [P, exec, fallible, horc, List.countP_append, List.countP_cons, isClose, ht]

/-- Trailing `skip` does not change the trace. -/
theorem exec_seq_skip_trace (A : Stmt) (orc : Nat → Resp) (n : Nat) :
    (exec (.seq A .skip) orc n).1 = (exec A orc n).1 := by
  simp only [exec]
  rcases h : exec A orc n with ⟨t, o, n1⟩
  cases o <;> simp [exec]

/-- The trace of a sequence whose first part completed normally. -/
theorem exec_seq_normal (A B' : Stmt) (orc : Nat → Resp) (n : Nat) (t1 : List Op)
    (n1 : Nat) (hA : exec A orc n = (t1, .normal, n1)) :
    (exec (.seq A B') orc n).1 = t1 ++ (exec B' orc n1).1 := by
  simp only [exec, hA]

/-- The pattern shared by the six scripts that guard their body with
`try .. finally: browser.close()`: some fallible setup calls (none of them a
`close`), then the guarded body.  If the setup succeeds, `close` is performed
exactly once on every run. -/
theorem close_once_aux (B : Stmt) (hb : (allOps B).countP isClose = 0) :
    ∀ (pre : List Op) (orc : Nat → Resp) (n : Nat),
      pre.all (fun op => !isClose op && fallible op) = true →
      (∀ i, i < pre.length → ∀ k, orc (n + i) ≠ .raise k) →
      ((exec (block (pre.map .prim ++ [.tryFinally B (P .close)])) orc n).1).countP isClose
        = 1 := by
  intro pre
  induction pre with
  | nil =>
      intro orc n _ _
      have hform : block (List.map .prim [] ++ [Stmt.tryFinally B (P .close)])
          = .seq (.tryFinally B (P .close)) .skip := rfl
      rw [hform, exec_seq_skip_trace]
      exact tryFinally_close_count B hb orc n
  | cons a pre ih =>
      intro orc n hall hno
      simp only [List.all_cons, Bool.and_eq_true, Bool.not_eq_true'] at hall
      have hform : block (List.map .prim (a :: pre) ++ [Stmt.tryFinally B (P .close)])
          = .seq (.prim a)
              (block (List.map .prim pre ++ [Stmt.tryFinally B (P .close)])) := rfl
      rw [hform]
      have hfa : fallible a = true := hall.1.2
      have hnr := hno 0 (Nat.succ_pos _)
      simp only [Nat.add_zero] at hnr
      have hstep : exec (.prim a) orc n = ([a], .normal, n + 1) := by
        simp only [exec, hfa, if_true]
      rw [exec_seq_normal _ _ orc n [a] (n + 1) hstep, List.countP_append]
      have htail := ih orc (n + 1) hall.2
        (fun i hi k => by
          have := hno (i + 1) (by simp only [List.length_cons]; omega) k
          simpa [Nat.add_assoc, Nat.add_comm 1 i] using this)
      rw [htail]
      simp [List.countP_cons, hall.1.1]

/-- The pattern of verify_contact.py's `__main__`: the `except` handler
re-raises after its own steps, and the `finally` closes.  Whenever the `try`
body raises (a navigation, interaction or assertion failure), the process
exit code is 1, for any handler with no `return` / `exit`. -/
theorem tryCatchR_guard_exit (B H : Stmt) (hH : noEsc H = true)
    (orc : Nat → Resp) (n : Nat) (k : ExcKind)
    (h : (exec B orc n).2.1 = .raised k) :
    exitCode (exec (.tryFinally (.tryCatchR B H) (P .close)) orc n).2.1 = 1 := by
  simp only [exec]
  rcases hb : exec B orc n with ⟨t, o, n1⟩
  rw [hb] at h
  subst h
  dsimp only
  rcases hh : exec H orc n1 with ⟨t2, o2, n2⟩
  have hoh := exec_noEsc H hH orc n1
  rw [hh] at hoh
  cases o2
  · cases horc : orc n2 <;> simp [P, exec, fallible, horc, exitCode]
  case raised k2 =>
    cases horc : orc n2 <;> simp [P, exec, fallible, horc, exitCode]
  · rcases hoh with h' | ⟨k2, h'⟩ <;> simp at h'
  · rcases hoh with h' | ⟨k2, h'⟩ <;> simp at h'

/-- A `try: call; except: call2` site with a failing first call performs
exactly the two calls, in order, and its outcome is decided by the retry. -/
theorem retry_snippet (c1 c2 : Op) (h1 : fallible c1 = true) (h2 : fallible c2 = true)
    (orc : Nat → Resp) (n : Nat) (k : ExcKind) (h : orc n = .raise k) :
    (exec (.tryCatch (.prim c1) (.prim c2)) orc n).1 = [c1, c2]
  ∧ ((exec (.tryCatch (.prim c1) (.prim c2)) orc n).2.1 =
      match orc (n + 1) with
      | .raise k2 => .raised k2
      | _ => .normal) := by
  simp only [exec, h1, if_true, h]
  cases horc : orc (n + 1) <;> simp [h2]

/-! ## Claim theorems -/

/-- C1, counterexample: on the run of verify_timeline_hover.py in which the
`goto` raises (oracle index 2), the script prints and returns early: the
launched browser is never closed, so `close` is not called exactly once on
every exit path. -/
theorem C1_counterexample :
    (exec timeline_hover_run orcGotoFails 0).1 =
      [Op.launch, Op.newPage, Op.goto "http://localhost:4173" none,
       Op.printMsg "Could not connect to localhost:4173."]
  ∧ (exec timeline_hover_run orcGotoFails 0).2.1 = .returned
  ∧ ((exec timeline_hover_run orcGotoFails 0).1).countP isClose = 0 :=
  ⟨rfl, rfl, rfl⟩

/-- C1 (amended): only the six scripts that wrap their body in
`try .. finally: browser.close()` (verify_contact, verify_filemanager_sort,
verify_font_size, verify_command_palette, verify_rotate, verify_whats_new)
call `close` exactly once on every exit path, and only once the browser
set-up calls preceding the `try` have succeeded; the scripts without a
`finally` (verify_timeline_hover among them) have exit paths with no close. -/
theorem C1_amended : ∀ orc : Nat → Resp,
    ((∀ i, i < 3 → ∀ k, orc i ≠ .raise k) →
        ((exec verify_contact_main orc 0).1).countP isClose = 1)
  ∧ ((∀ i, i < 2 → ∀ k, orc i ≠ .raise k) →
        ((exec verify_filemanager_sort_main orc 0).1).countP isClose = 1)
  ∧ ((∀ i, i < 2 → ∀ k, orc i ≠ .raise k) →
        ((exec font_size_run orc 0).1).countP isClose = 1)
  ∧ ((∀ i, i < 3 → ∀ k, orc i ≠ .raise k) →
        ((exec verify_command_palette_main orc 0).1).countP isClose = 1)
  ∧ ((∀ i, i < 3 → ∀ k, orc i ≠ .raise k) →
        ((exec test_add_rotate_features orc 0).1).countP isClose = 1)
  ∧ ((∀ i, i < 2 → ∀ k, orc i ≠ .raise k) →
        ((exec verify_whats_new_main orc 0).1).countP isClose = 1) := by
  intro orc
  refine ⟨fun h => ?_, fun h => ?_, fun h => ?_, fun h => ?_, fun h => ?_, fun h => ?_⟩
  · exact close_once_aux _ (by rfl)
      [Op.launch, Op.newPage, Op.misc "set_viewport_size 1280x720"] orc 0 (by rfl)
      (by intro i hi k; simpa using h i hi k)
  · exact close_once_aux _ (by rfl) [Op.launch, Op.newPage] orc 0 (by rfl)
      (by intro i hi k; simpa using h i hi k)
  · exact close_once_aux _ (by rfl) [Op.launch, Op.newPage] orc 0 (by rfl)
      (by intro i hi k; simpa using h i hi k)
  · exact close_once_aux _ (by rfl)
      [Op.launch, Op.newPage, Op.misc "set_viewport_size 1280x720"] orc 0 (by rfl)
      (by intro i hi k; simpa using h i hi k)
  · exact close_once_aux _ (by rfl) [Op.launch, Op.newContext, Op.newPage] orc 0 (by rfl)
      (by intro i hi k; simpa using h i hi k)
  · exact close_once_aux _ (by rfl) [Op.launch, Op.newPage] orc 0 (by rfl)
      (by intro i hi k; simpa using h i hi k)

/-- C1 witness: on a run of verify_contact.py with no failures, close is
performed exactly once. -/
theorem C1_amended_witness :
    ((exec verify_contact_main orcAllOk 0).1).countP isClose = 1 :=
  (C1_amended orcAllOk).1 (by intro i hi k h; exact Resp.noConfusion h)

/-- C2, counterexample: on the run of verify_filemanager_sort.py in which the
wait for the "Recent" sort button fails (oracle index 5, a failed visibility
check), the exception is caught and only printed, `close` runs in the
`finally`, and the process exits 0 — not non-zero as claimed. -/
theorem C2_counterexample :
    orcRecentMissing 5 = .raise .timeoutErr
  ∧ (exec verify_filemanager_sort_main orcRecentMissing 0).1 =
      [Op.launch, Op.newPage, Op.goto "http://localhost:4173" none,
       Op.click "get_by_title(File Manager)" false none, Op.waitForTimeout 500,
       Op.waitForSelector "get_by_role(button, Recent)" "visible" none,
       Op.printMsg "Verification failed", Op.close]
  ∧ exitCode (exec verify_filemanager_sort_main orcRecentMissing 0).2.1 = 0 :=
  ⟨rfl, rfl, rfl⟩

/-- C2 (amended): whether a failing check yields a non-zero exit depends on
the script.  verify_contact.py re-raises after its handler, so whenever its
`try` body raises the process exit code is 1; verify_settings.py exits 1 when
its visibility value-check fails; but verify_filemanager_sort.py and
verify_command_palette.py swallow the failure and exit 0 (the counterexample). -/
theorem C2_amended :
    (∀ (orc : Nat → Resp) (n : Nat) (k : ExcKind),
        (exec contact_body orc n).2.1 = .raised k →
        exitCode (exec contact_guarded orc n).2.1 = 1)
  ∧ (exec verify_settings orcAllOk 0).2.1 = .exited 1
  ∧ exitCode (exec verify_settings orcAllOk 0).2.1 = 1 :=
  ⟨fun orc n k h => tryCatchR_guard_exit contact_body contact_fail_handler rfl orc n k h,
   rfl, rfl⟩

/-- C2 witness: a run of verify_contact.py in which every driver call raises
(the body fails at the navigation) exits with code 1. -/
theorem C2_amended_witness :
    (exec contact_body orcAllRaise 0).2.1 = .raised .timeoutErr
  ∧ exitCode (exec contact_guarded orcAllRaise 0).2.1 = 1 :=
  ⟨rfl, C2_amended.1 orcAllRaise 0 .timeoutErr rfl⟩

/-- C3: every hard-coded `http` navigation target across the 18 scripts is a
`http://localhost:PORT` URL whose port is one of 3000, 4173, 5173, 8080, and
each of those four ports occurs in at least one script. -/
theorem C3_localhost_ports :
    (httpUrls.all fun u => (portOf u).isSome) = true
  ∧ (httpPorts.all fun p => [3000, 4173, 5173, 8080].contains p) = true
  ∧ ([3000, 4173, 5173, 8080].all fun p => httpPorts.contains p) = true :=
  ⟨rfl, rfl, rfl⟩

/-- C4, counterexample: capture_screenshot.py navigates to a `file://` URL
(the generated HTML preview), so not every page navigation in the scripts uses
the `http` scheme. -/
theorem C4_counterexample :
    gotoUrls capture_screenshot_run = ["file://" ++ page_content_abspath]
  ∧ isHttpUrl ("file://" ++ page_content_abspath) = false :=
  ⟨rfl, rfl⟩

/-- C4 (amended): every hard-coded navigation in the scripts reaches the
target application over `http://localhost:...`, except the single `file://`
navigation of capture_screenshot.py, which loads a generated local HTML page
rather than the target web application. -/
theorem C4_amended :
    allGotoUrls.filter (fun u => !isHttpUrl u) = ["file://" ++ page_content_abspath]
  ∧ (httpUrls.all fun u => u.data.take 17 == "http://localhost:".data) = true :=
  ⟨rfl, rfl⟩

/-- C5, counterexample: verify_history.py passes a 30000 ms timeout to its
navigation — the observed navigation deadline is not 10 seconds. -/
theorem C5_counterexample :
    gotoTimeouts verify_history_panel = [some 30000]
  ∧ (some 30000 : Option Nat) ≠ some 10000 :=
  ⟨rfl, by decide⟩

/-- C5 (amended): the explicit navigation timeouts passed in the scripts are
bounded but are 30 s (verify_history) and 20 s (verify_script_v2), not 10 s;
all other navigations pass no explicit timeout (driver default); 10 s appears
in post-navigation load waits such as verify_frontend's loading-screen wait. -/
theorem C5_amended :
    explicitGotoTimeouts = [30000, 20000]
  ∧ (explicitGotoTimeouts.all fun t => decide (0 < t)) = true
  ∧ Op.waitForSelector "#loading-screen" "hidden" (some 10000) ∈ allOps verify_frontend := by
  refine ⟨rfl, rfl, ?_⟩
  decide

/-- C6, counterexample: in verify_focus.py the first Add-Path click fails with
`notFound` (oracle index 9) — not an obscured-element failure — yet the bare
`except` still retries once with `force=true` and the run completes normally
instead of propagating the error. -/
theorem C6_counterexample :
    orcClickNotFound 9 = .raise .notFound
  ∧ ((exec focus_run orcClickNotFound 0).1).countP isForcedClick = 1
  ∧ (exec focus_run orcClickNotFound 0).2.1 = .normal :=
  ⟨rfl, rfl, rfl⟩

/-- C6 (amended): the only click-retry sites in the scripts are the two cited
ones (verify_focus.py, verify_timeline_hover.py); each retries a failed click
exactly once with `force=true` regardless of the failure kind (the bare
`except` catches any error, not only an obscured target), and a failure of the
forced retry itself propagates with no further retry. -/
theorem C6_amended :
    allRetrySites =
      [(focus_first_click, focus_forced_click), (hover_first_click, hover_forced_click)]
  ∧ (∀ (orc : Nat → Resp) (n : Nat) (k : ExcKind), orc n = .raise k →
      ((exec focus_click_retry orc n).1 = [focus_first_click, focus_forced_click]
      ∧ (exec hover_click_retry orc n).1 = [hover_first_click, hover_forced_click]
      ∧ ∀ k2, orc (n + 1) = .raise k2 →
          (exec focus_click_retry orc n).2.1 = .raised k2
          ∧ (exec hover_click_retry orc n).2.1 = .raised k2)) := by
  constructor
  · rfl
  · intro orc n k h
    obtain ⟨ht1, ho1⟩ := retry_snippet focus_first_click focus_forced_click rfl rfl orc n k h
    obtain ⟨ht2, ho2⟩ := retry_snippet hover_first_click hover_forced_click rfl rfl orc n k h
    have ho1' : (exec focus_click_retry orc n).2.1 =
        match orc (n + 1) with
        | .raise k2 => Outcome.raised k2
        | _ => Outcome.normal := ho1
    have ho2' : (exec hover_click_retry orc n).2.1 =
        match orc (n + 1) with
        | .raise k2 => Outcome.raised k2
        | _ => Outcome.normal := ho2
    refine ⟨ht1, ht2, fun k2 h2 => ⟨?_, ?_⟩⟩
    · rw [ho1', h2]
    · rw [ho2', h2]

/-- C6 witness: with every call failing, the focus-script retry site performs
the original click then exactly the forced retry, and the retry's own failure
propagates. -/
theorem C6_amended_witness :
    (exec focus_click_retry orcAllRaise 0).1 = [focus_first_click, focus_forced_click]
  ∧ (exec focus_click_retry orcAllRaise 0).2.1 = .raised .timeoutErr :=
  ⟨(C6_amended.2 orcAllRaise 0 .timeoutErr rfl).1,
   ((C6_amended.2 orcAllRaise 0 .timeoutErr rfl).2.2 .timeoutErr rfl).1⟩

/-- C7: the only computed-style reads in the whole repository are the three in
verify_timeline_hover.py (marker opacity once, tooltip opacity once before and
once after the hover); each is a single snapshot — the statement language has
no loops, so on any run the performed style reads form a sublist of those
three call sites, with the hover sitting between the two tooltip reads. -/
theorem C7_single_snapshot :
    allStyleReads = [markerOpacityRead, tooltipOpacityRead, tooltipOpacityRead]
  ∧ (allOps timeline_hover_run).filter (fun op => isStyleRead op || isHoverOp op)
      = [markerOpacityRead, tooltipOpacityRead, markerHover, tooltipOpacityRead]
  ∧ ∀ (orc : Nat → Resp) (n : Nat),
      (((exec timeline_hover_run orc n).1).filter isStyleRead).Sublist
        [markerOpacityRead, tooltipOpacityRead, tooltipOpacityRead] := by
  refine ⟨rfl, rfl, fun orc n => ?_⟩
  have h := (exec_trace_sublist timeline_hover_run orc n).filter isStyleRead
  have e : (allOps timeline_hover_run).filter isStyleRead
      = [markerOpacityRead, tooltipOpacityRead, tooltipOpacityRead] := rfl
  rwa [e] at h

/-- C8: in the spec-modelled application, clicking `[aria-label=Settings]` on
the freshly navigated page makes the `[role=dialog]` visibility assertion pass;
verify_contact.py encodes exactly this interaction/assertion pair. -/
theorem C8_settings_dialog_scenario :
    checkAssertion (appApply initialApp (.clickI "[aria-label=Settings]"))
        (.visible "[role=dialog]") = .pass
  ∧ Op.click "get_by_label(Settings)" false none ∈ allOps verify_contact_section
  ∧ Op.expectVisible "get_by_role(dialog)" false none ∈ allOps verify_contact_section := by
  refine ⟨rfl, ?_, ?_⟩ <;> decide

/-- C9: every one of the 18 scripts launches exactly one browser on every run
(the launch is the first call and no other launch site exists), so each
scenario execution owns a single browser session. -/
theorem C9_one_session_per_script :
    ∀ sc ∈ allScripts, ∀ orc : Nat → Resp, ((exec sc orc 0).1).countP isLaunch = 1 := by
  intro sc hsc orc
  simp only [allScripts, List.mem_cons, List.not_mem_nil, or_false] at hsc
  rcases hsc with rfl|rfl|rfl|rfl|rfl|rfl|rfl|rfl|rfl|rfl|rfl|rfl|rfl|rfl|rfl|rfl|rfl|rfl <;>
    exact countP_launch_one _ (by rfl) (by rfl) orc 0

/-- C9 witness: a clean run of verify_settings.py launches exactly one browser. -/
theorem C9_witness :
    ((exec verify_settings orcAllOk 0).1).countP isLaunch = 1 :=
  C9_one_session_per_script verify_settings (by simp [allScripts]) orcAllOk

/-- C10, counterexample: verify_timeline_hover.py performs its dialog
dismissal (`dialog.count()`, `is_visible()`, Escape) outside any `try`; when
the Escape press raises (oracle index 6), the exception propagates uncaught
and the script terminates with a non-zero exit — dismissal is not best-effort
in every script that attempts it. -/
theorem C10_counterexample :
    orcEscapeFails 6 = .raise .other
  ∧ (exec timeline_hover_run orcEscapeFails 0).1 =
      [Op.launch, Op.newPage, Op.goto "http://localhost:4173" none,
       Op.waitForLoadState "networkidle", Op.query "dialog.count() > 0",
       Op.query "dialog.first.is_visible()", Op.press "Escape"]
  ∧ (exec timeline_hover_run orcEscapeFails 0).2.1 = .raised .other
  ∧ exitCode (exec timeline_hover_run orcEscapeFails 0).2.1 = 1 :=
  ⟨rfl, rfl, rfl, rfl⟩

/-- C10 (amended): in the scripts that wrap their dialog dismissal in
`try .. except: print(..)` (verify_settings, verify_frontend, verify_feature,
verify_fix_v2, verify_script_v2), any exception raised while detecting or
closing the dialog is caught and the block completes normally on every run;
but verify_timeline_hover.py and verify_focus.py attempt dismissal with no
wrapper, so an exception there terminates the script (the counterexample). -/
theorem C10_amended : ∀ (orc : Nat → Resp) (n : Nat),
    (exec settings_whats_new_handling orc n).2.1 = .normal
  ∧ (exec frontend_dialog_handling orc n).2.1 = .normal
  ∧ (exec feature_whats_new_handling orc n).2.1 = .normal
  ∧ (exec feature_skip_handling orc n).2.1 = .normal
  ∧ (exec fix_v2_whats_new_handling orc n).2.1 = .normal
  ∧ (exec script_v2_dialog_handling orc n).2.1 = .normal := by
  intro orc n
  refine ⟨?_, ?_, ?_, ?_, ?_, ?_⟩ <;> exact tryCatch_print_normal _ _ (by rfl) orc n

end PedroScripts
